import Mathlib

/-!
Verification of the tomata pomodoro timer core (src/tomata.rs, src/settings.rs,
src/state.rs) against its design specification.

The embedding mirrors the Rust source:
* `Duration` (`std::time::Duration`, non-negative) is modelled as `Nat`
  (the application only ever constructs durations with `Duration::from_secs`);
  `Rc<Duration>` wrappers exist only to satisfy the GUI diffing trait and are
  dropped.
* `beep_volume : f64` is a floating-point field consumed only by the audio
  collaborator; no claim depends on it and it is omitted.
* Side effects fired from the state machine (desktop notification in
  `activate_period`, beep thread in `increase_elapsed_time`) are collaborator
  calls that do not touch the state fields; the embedding keeps the pure state
  transition.
* File I/O (`load_settings_from_file`, `save_settings_to_file`) is embedded by
  abstracting the environment: the result of `File::open` / `File::create` and
  of the serde (de)serialization are passed in as `Except` values, and the
  function body reproduces the Rust control flow over them.  A Rust panic
  (`unwrap()` on an `Err`) is modelled as the `none` case of an outer `Option`.
-/

/-- Rust `enum Period` from src/tomata.rs. -/
inductive Period where
  | Work
  | ShortBreak
  | LongBreak
deriving DecidableEq, Repr

/-- `std::time::Duration` at seconds resolution, as used throughout the app.
Signatures below use `Nat` directly (the alias is kept for documentation). -/
abbrev Duration := Nat

abbrev SECOND_S : Nat := 1

abbrev MINUTE_S : Nat := SECOND_S * 60

abbrev HOUR_S : Nat := MINUTE_S * 60

abbrev ZERO : Nat := 0

abbrev TWENTY_FIVE_MINUTES : Nat := MINUTE_S * 25

abbrev FIVE_MINUTES : Nat := MINUTE_S * 5

abbrev EIGHT_MINUTES : Nat := MINUTE_S * 8

abbrev DEFAULT_SHORT_BREAKS_BEFORE_LONG_BREAK : Nat := 3

/-- Rust `struct Settings` from src/settings.rs (beep_volume, an f64 consumed
only by the audio collaborator, omitted). -/
structure Settings where
  work_period : Nat
  short_break_period : Nat
  long_break_period : Nat
  short_breaks_number : Nat
  long_breaks_are_included : Bool
  next_period_starts_automatically : Bool
  system_notifications_are_enabled : Bool
  period_ending_sound_is_enabled : Bool
deriving DecidableEq, Repr

/-- `impl Default for Settings`. -/
def Settings.default : Settings where
  work_period := TWENTY_FIVE_MINUTES
  short_break_period := FIVE_MINUTES
  long_break_period := EIGHT_MINUTES
  short_breaks_number := DEFAULT_SHORT_BREAKS_BEFORE_LONG_BREAK
  long_breaks_are_included := true
  next_period_starts_automatically := false
  system_notifications_are_enabled := true
  period_ending_sound_is_enabled := true

def Settings.get_short_breaks_number (s : Settings) : Nat :=
  s.short_breaks_number

def Settings.are_long_breaks_included (s : Settings) : Bool :=
  s.long_breaks_are_included

def Settings.does_next_period_start_automatically (s : Settings) : Bool :=
  s.next_period_starts_automatically

def Settings.are_system_notifications_enabled (s : Settings) : Bool :=
  s.system_notifications_are_enabled

def Settings.is_period_ending_sound_enabled (s : Settings) : Bool :=
  s.period_ending_sound_is_enabled

def Settings.convert_period_to_duration (s : Settings) (period : Period) : Nat :=
  match period with
  | Period.Work => s.work_period
  | Period.ShortBreak => s.short_break_period
  | Period.LongBreak => s.long_break_period

def Settings.increase_period_duration (s : Settings) (period : Period) (value : Nat) :
    Settings :=
  match period with
  | Period.Work => { s with work_period := s.work_period + value }
  | Period.ShortBreak => { s with short_break_period := s.short_break_period + value }
  | Period.LongBreak => { s with long_break_period := s.long_break_period + value }

def Settings.decrease_period_duration (s : Settings) (period : Period) (value : Nat) :
    Settings :=
  match period with
  | Period.Work =>
      if value > s.work_period then
        { s with work_period := 0 }
      else
        { s with work_period := s.work_period - value }
  | Period.ShortBreak =>
      if value > s.short_break_period then
        { s with short_break_period := 0 }
      else
        { s with short_break_period := s.short_break_period - value }
  | Period.LongBreak =>
      if value > s.long_break_period then
        { s with long_break_period := 0 }
      else
        { s with long_break_period := s.long_break_period - value }

def Settings.increase_short_breaks_number (s : Settings) (value : Nat) : Settings :=
  { s with short_breaks_number := s.short_breaks_number + value }

def Settings.decrease_short_breaks_number (s : Settings) (value : Nat) : Settings :=
  if value > s.short_breaks_number then
    { s with short_breaks_number := 0 }
  else
    { s with short_breaks_number := s.short_breaks_number - value }

/-- Rust `struct TomataState` from src/state.rs. -/
structure TomataState where
  settings : Settings
  elapsed_time : Nat
  current_period : Period
  stopwatch_is_paused : Bool
  period_is_finished : Bool
  short_breaks_finished : Nat
deriving DecidableEq, Repr

/-- `impl Default for TomataState`. -/
def TomataState.default : TomataState where
  settings := Settings.default
  elapsed_time := ZERO
  current_period := Period.Work
  stopwatch_is_paused := true
  period_is_finished := false
  short_breaks_finished := 0

/-- `TomataState::new`: the default state with the given settings substituted. -/
def TomataState.new (settings : Settings) : TomataState :=
  { TomataState.default with settings := settings }

def TomataState.is_stopwatch_paused (s : TomataState) : Bool :=
  s.stopwatch_is_paused

def TomataState.is_period_finished (s : TomataState) : Bool :=
  s.period_is_finished

def TomataState.start_stopwatch (s : TomataState) : TomataState :=
  { s with stopwatch_is_paused := false }

def TomataState.pause_stopwatch (s : TomataState) : TomataState :=
  { s with stopwatch_is_paused := true }

/-- `activate_period` (the notification dispatch, a collaborator side effect,
does not change the state fields). -/
def TomataState.activate_period (s : TomataState) (period : Period) : TomataState :=
  { s with
    current_period := period
    period_is_finished := false
    elapsed_time := ZERO
    stopwatch_is_paused :=
      if s.settings.does_next_period_start_automatically then false else true }

def TomataState.reset_stopwatch (s : TomataState) : TomataState :=
  s.activate_period s.current_period

def TomataState.is_long_break_next (s : TomataState) : Bool :=
  s.short_breaks_finished == s.settings.get_short_breaks_number
    && s.settings.are_long_breaks_included

def TomataState.cycle_to_next_period (s : TomataState) : TomataState :=
  match s.current_period with
  | Period.Work =>
      if s.is_long_break_next then
        s.activate_period Period.LongBreak
      else if s.settings.get_short_breaks_number > 0 then
        s.activate_period Period.ShortBreak
      else
        s.activate_period Period.Work
  | Period.ShortBreak =>
      ({ s with short_breaks_finished := s.short_breaks_finished + 1 }).activate_period
        Period.Work
  | Period.LongBreak =>
      ({ s with short_breaks_finished := 0 }).activate_period Period.Work

/-- `increase_elapsed_time` (the beep dispatch, a collaborator side effect,
does not change the state fields). -/
def TomataState.increase_elapsed_time (s : TomataState) (value : Nat) : TomataState :=
  let s1 := { s with elapsed_time := s.elapsed_time + value }
  let period_duration := s1.settings.convert_period_to_duration s1.current_period
  if period_duration ≤ s1.elapsed_time then
    { s1 with period_is_finished := true }
  else
    s1

def TomataState.calculate_remaining_time (s : TomataState) : Nat :=
  let period_duration := s.settings.convert_period_to_duration s.current_period
  if period_duration ≤ s.elapsed_time then
    ZERO
  else
    period_duration - s.elapsed_time

def TomataState.is_period_finishing (s : TomataState) : Bool :=
  s.calculate_remaining_time ≤ 5

/-- `load_settings_from_file` from src/settings.rs: the outcome of `File::open`
and of `serde_json::from_reader` are supplied by the environment as `Except`
values; the body reproduces the Rust control flow (any failure yields `none`). -/
def load_settings_from_file {File OpenError ParseError : Type}
    (open_result : Except OpenError File)
    (from_reader : File → Except ParseError Settings) : Option Settings :=
  match open_result with
  | Except.error _ => none
  | Except.ok file =>
      match from_reader file with
      | Except.error _ => none
      | Except.ok settings => some settings

/-- `save_settings_to_file` from src/settings.rs.  `File::create(path)?`
propagates a creation error as `Err`; `serde_json::to_writer_pretty(..).unwrap()`
panics when serialization or the buffered write fails — the panic is modelled
as the outer `none`, a normally returned value as `some`. -/
def save_settings_to_file {File CreateError WriteError : Type} (settings : Settings)
    (create_result : Except CreateError File)
    (to_writer_pretty : File → Settings → Except WriteError Unit) :
    Option (Except CreateError Unit) :=
  match create_result with
  | Except.error e => some (Except.error e)
  | Except.ok file =>
      match to_writer_pretty file settings with
      | Except.error _ => none
      | Except.ok _ => some (Except.ok ())

/-- C10: for every `Settings` value, a freshly constructed `TomataState`
(via `TomataState::new` or the `Default` implementation) starts at `Work`
with zero elapsed time, paused, not finished, and zero short breaks finished —
in particular it starts paused even when `next_period_starts_automatically`
is true. -/
theorem new_state_spec (settings : Settings) :
    (TomataState.new settings).settings = settings ∧
    (TomataState.new settings).current_period = Period.Work ∧
    (TomataState.new settings).elapsed_time = 0 ∧
    (TomataState.new settings).stopwatch_is_paused = true ∧
    (TomataState.new settings).period_is_finished = false ∧
    (TomataState.new settings).short_breaks_finished = 0 ∧
    TomataState.default.current_period = Period.Work ∧
    TomataState.default.elapsed_time = 0 ∧
    TomataState.default.stopwatch_is_paused = true ∧
    TomataState.default.period_is_finished = false ∧
    TomataState.default.short_breaks_finished = 0 :=
  ⟨rfl, rfl, rfl, rfl, rfl, rfl, rfl, rfl, rfl, rfl, rfl⟩

/-- C3: for every prior state and every period, `activate_period` yields that
period with zero elapsed time, the finished flag cleared, and the paused flag
set to the negation of `next_period_starts_automatically`; and
`reset_stopwatch` is exactly `activate_period` at the current period. -/
theorem activate_period_spec (s : TomataState) (period : Period) :
    (s.activate_period period).current_period = period ∧
    (s.activate_period period).elapsed_time = 0 ∧
    (s.activate_period period).period_is_finished = false ∧
    (s.activate_period period).stopwatch_is_paused
      = !s.settings.does_next_period_start_automatically ∧
    s.reset_stopwatch = s.activate_period s.current_period := by
  refine ⟨rfl, rfl, rfl, ?_, rfl⟩
  unfold TomataState.activate_period
  cases s.settings.does_next_period_start_automatically <;> rfl

/-- C4: for every state, `calculate_remaining_time` equals
`max 0 (duration_for(current_period) - elapsed_time)` (computed in ℤ, so the
claim that it is never negative is meaningful), and it is exactly zero whenever
`elapsed_time` has reached the period duration. -/
theorem calculate_remaining_time_spec (s : TomataState) :
    (s.calculate_remaining_time : Int) =
      max 0 ((s.settings.convert_period_to_duration s.current_period : Int)
        - (s.elapsed_time : Int)) ∧
    (s.settings.convert_period_to_duration s.current_period ≤ s.elapsed_time →
      s.calculate_remaining_time = 0) := by
  constructor
  · by_cases h : s.settings.convert_period_to_duration s.current_period ≤ s.elapsed_time
    · simp only [TomataState.calculate_remaining_time, if_pos h, ZERO]
      omega
    · simp only [TomataState.calculate_remaining_time, if_neg h, ZERO]
      omega
  · intro h
    simp [TomataState.calculate_remaining_time, h]

/-- C4 witness: at the default state with elapsed time 2000 s (past the 1500 s
work duration), the remaining time computes to zero. -/
theorem calculate_remaining_time_spec_witness :
    ({ TomataState.default with elapsed_time := 2000 } : TomataState).calculate_remaining_time
      = 0 :=
  (calculate_remaining_time_spec _).2 (by decide)

/-- C5: `decrease_period_duration` sets the duration of the given period to
`max 0 (old - value)` (computed in ℤ: clamped at zero, never negative or
wrapped), and leaves the durations of the other periods unchanged. -/
theorem decrease_period_duration_spec (s : Settings) (period : Period) (value : Nat) :
    ((s.decrease_period_duration period value).convert_period_to_duration period : Int) =
      max 0 ((s.convert_period_to_duration period : Int) - (value : Int)) ∧
    ∀ other : Period, other ≠ period →
      (s.decrease_period_duration period value).convert_period_to_duration other =
        s.convert_period_to_duration other := by
  constructor
  · cases period <;>
      simp only [Settings.decrease_period_duration, Settings.convert_period_to_duration] <;>
      split_ifs with h <;> simp only [] <;> omega
  · intro other hne
    cases period <;> cases other <;>
      simp_all only [ne_eq, not_false_eq_true, not_true_eq_false,
        Settings.decrease_period_duration, Settings.convert_period_to_duration] <;>
      split_ifs <;> rfl

/-- C5 witness: decreasing the default 1500 s work duration by 2000 s clamps
it to zero and leaves the short-break duration at 300 s. -/
theorem decrease_period_duration_spec_witness :
    ((Settings.default.decrease_period_duration Period.Work 2000).convert_period_to_duration
        Period.Work : Int) = max 0 ((1500 : Int) - 2000) ∧
    (Settings.default.decrease_period_duration Period.Work 2000).convert_period_to_duration
        Period.ShortBreak = 300 :=
  ⟨(decrease_period_duration_spec Settings.default Period.Work 2000).1,
    (decrease_period_duration_spec Settings.default Period.Work 2000).2
      Period.ShortBreak (by decide)⟩

/-- Demo settings for the cycle law: two short breaks before a long break,
long breaks included (the other fields are the defaults). -/
def cycle_demo_settings : Settings :=
  { Settings.default with short_breaks_number := 2, long_breaks_are_included := true }

/-- Iterates of `cycle_to_next_period` from a fresh state under
`cycle_demo_settings`. -/
def cycle_demo_states : Nat → TomataState
  | 0 => TomataState.new cycle_demo_settings
  | n + 1 => (cycle_demo_states n).cycle_to_next_period

/-- C1: with `short_breaks_number = 2` and `long_breaks_are_included = true`,
starting from `Work` with `short_breaks_finished = 0`, successive
`cycle_to_next_period` calls visit the seven periods
Work→ShortBreak→Work→ShortBreak→Work→LongBreak→Work (the starting `Work` plus
the results of six calls), with `short_breaks_finished` equal to 1 after the
first short break completes and reset to 0 after the long break completes. -/
theorem cycle_law_spec :
    ((cycle_demo_states 0).current_period = Period.Work ∧
      (cycle_demo_states 1).current_period = Period.ShortBreak ∧
      (cycle_demo_states 2).current_period = Period.Work ∧
      (cycle_demo_states 3).current_period = Period.ShortBreak ∧
      (cycle_demo_states 4).current_period = Period.Work ∧
      (cycle_demo_states 5).current_period = Period.LongBreak ∧
      (cycle_demo_states 6).current_period = Period.Work) ∧
    (cycle_demo_states 0).short_breaks_finished = 0 ∧
    (cycle_demo_states 2).short_breaks_finished = 1 ∧
    (cycle_demo_states 4).short_breaks_finished = 2 ∧
    (cycle_demo_states 6).short_breaks_finished = 0 := by
  decide

/-- C9: from `Work`, `cycle_to_next_period` activates `LongBreak` if and only
if `short_breaks_finished` equals `short_breaks_number` exactly and long breaks
are included; in particular with `short_breaks_finished` strictly above a
positive `short_breaks_number` it activates `ShortBreak`, never `LongBreak`. -/
theorem long_break_gate_spec (s : TomataState) (h : s.current_period = Period.Work) :
    (s.cycle_to_next_period.current_period = Period.LongBreak ↔
      (s.short_breaks_finished = s.settings.get_short_breaks_number ∧
        s.settings.are_long_breaks_included = true)) ∧
    (s.settings.get_short_breaks_number < s.short_breaks_finished →
      0 < s.settings.get_short_breaks_number →
      s.cycle_to_next_period.current_period = Period.ShortBreak) := by
  have hc : s.cycle_to_next_period =
      if s.is_long_break_next then
        s.activate_period Period.LongBreak
      else if s.settings.get_short_breaks_number > 0 then
        s.activate_period Period.ShortBreak
      else
        s.activate_period Period.Work := by
    unfold TomataState.cycle_to_next_period
    rw [h]
  rw [hc]
  constructor
  · by_cases hg : s.is_long_break_next
    · have hg2 := hg
      simp only [TomataState.is_long_break_next, Bool.and_eq_true, beq_iff_eq] at hg2
      simp [hg, TomataState.activate_period, hg2.1, hg2.2]
    · have hg2 : ¬ (s.short_breaks_finished = s.settings.get_short_breaks_number ∧
          s.settings.are_long_breaks_included = true) := by
        intro hcontra
        exact hg (by
          simp only [TomataState.is_long_break_next, Bool.and_eq_true, beq_iff_eq]
          exact hcontra)
      by_cases hp : s.settings.get_short_breaks_number > 0 <;>
        simp [hg, hp, TomataState.activate_period, hg2]
  · intro hgt hpos
    have hne : s.short_breaks_finished ≠ s.settings.get_short_breaks_number := by
      omega
    have hg : s.is_long_break_next = false := by
      simp [TomataState.is_long_break_next, hne]
    simp [hg, hpos, TomataState.activate_period]

/-- Concrete state for the C9 witness: one configured short break, but two
short breaks already finished (reachable by decreasing the configured count
mid-cycle). -/
def gate_demo_state : TomataState :=
  { TomataState.default with
      settings := { Settings.default with short_breaks_number := 1 }
      short_breaks_finished := 2 }

/-- C9 witness: at `gate_demo_state` the next period is `ShortBreak`, not
`LongBreak`. -/
theorem long_break_gate_spec_witness :
    gate_demo_state.cycle_to_next_period.current_period = Period.ShortBreak :=
  (long_break_gate_spec gate_demo_state rfl).2 (by decide) (by decide)

/-- Concrete state for the C2 counterexample: the finished flag is set while
the elapsed time is still far below the 1500 s work duration (reachable by
finishing a period and then increasing its configured duration). -/
def sticky_flag_state : TomataState :=
  { TomataState.default with period_is_finished := true }

/-- C2 counterexample: after `increase_elapsed_time 1` from `sticky_flag_state`
the new elapsed time (1 s) is strictly below the period duration (1500 s), yet
`period_is_finished` is still true — the flag is not recomputed downward, so it
does not equal the threshold test for all prior values of the flag. -/
theorem increase_elapsed_time_not_recomputed :
    ((sticky_flag_state.increase_elapsed_time 1).elapsed_time <
        sticky_flag_state.settings.convert_period_to_duration
          (sticky_flag_state.increase_elapsed_time 1).current_period) ∧
    (sticky_flag_state.increase_elapsed_time 1).period_is_finished = true := by
  decide

/-- C2 (amended): `increase_elapsed_time value` adds `value` to `elapsed_time`;
`period_is_finished` becomes true when the new elapsed time reaches the period
duration and otherwise keeps its prior value (it is never reset to false by
this operation); every other field is unchanged. -/
theorem increase_elapsed_time_spec (s : TomataState) (value : Nat) :
    (s.increase_elapsed_time value).elapsed_time = s.elapsed_time + value ∧
    (s.increase_elapsed_time value).period_is_finished =
      (s.period_is_finished ||
        decide (s.settings.convert_period_to_duration s.current_period
          ≤ s.elapsed_time + value)) ∧
    (s.increase_elapsed_time value).settings = s.settings ∧
    (s.increase_elapsed_time value).current_period = s.current_period ∧
    (s.increase_elapsed_time value).stopwatch_is_paused = s.stopwatch_is_paused ∧
    (s.increase_elapsed_time value).short_breaks_finished = s.short_breaks_finished := by
  unfold TomataState.increase_elapsed_time
  by_cases hfin : s.settings.convert_period_to_duration s.current_period
      ≤ s.elapsed_time + value
  · simp [hfin]
  · simp [hfin]

/-- Concrete state for the C6 counterexample: paused with the finished flag
set. -/
def finished_paused_state : TomataState :=
  { TomataState.default with period_is_finished := true }

/-- C6 counterexample: at a paused state whose period is finished,
`start_stopwatch` changes the state (it clears the paused flag), so the call is
not a no-op when `period_is_finished` is true. -/
theorem start_stopwatch_changes_finished_state :
    finished_paused_state.start_stopwatch ≠ finished_paused_state := by
  decide

/-- C6 (amended): `start_stopwatch` unconditionally sets the paused flag to
false and leaves every other field unchanged — so it is a no-op exactly when
the stopwatch is already running, regardless of `period_is_finished`. -/
theorem start_stopwatch_spec (s : TomataState) :
    s.start_stopwatch.stopwatch_is_paused = false ∧
    s.start_stopwatch.settings = s.settings ∧
    s.start_stopwatch.elapsed_time = s.elapsed_time ∧
    s.start_stopwatch.current_period = s.current_period ∧
    s.start_stopwatch.period_is_finished = s.period_is_finished ∧
    s.start_stopwatch.short_breaks_finished = s.short_breaks_finished :=
  ⟨rfl, rfl, rfl, rfl, rfl, rfl⟩

/-- C7: `load_settings_from_file` is a total function into `Option`: a failed
open (missing or unreadable source) or a failed deserialization (malformed
content) yields `none` rather than an error, and a readable well-formed source
yields `some` of the deserialized settings snapshot; no other outcome exists. -/
theorem load_settings_from_file_spec {File OpenError ParseError : Type}
    (open_result : Except OpenError File)
    (from_reader : File → Except ParseError Settings) :
    (∀ e, open_result = Except.error e →
      load_settings_from_file open_result from_reader = none) ∧
    (∀ file e, open_result = Except.ok file → from_reader file = Except.error e →
      load_settings_from_file open_result from_reader = none) ∧
    (∀ file settings, open_result = Except.ok file → from_reader file = Except.ok settings →
      load_settings_from_file open_result from_reader = some settings) := by
  refine ⟨?_, ?_, ?_⟩
  · intro e he
    simp [load_settings_from_file, he]
  · intro file e hfile herr
    simp [load_settings_from_file, hfile, herr]
  · intro file settings hfile hok
    simp [load_settings_from_file, hfile, hok]

/-- C7 witness: a readable well-formed source deserializing to the default
settings loads as `some Settings.default`; an unreadable source loads as
`none`. -/
theorem load_settings_from_file_spec_witness :
    load_settings_from_file (Except.ok () : Except Unit Unit)
        (fun _ => (Except.ok Settings.default : Except Unit Settings))
      = some Settings.default ∧
    load_settings_from_file (Except.error () : Except Unit Unit)
        (fun _ => (Except.ok Settings.default : Except Unit Settings))
      = none :=
  ⟨(load_settings_from_file_spec (Except.ok ())
      (fun _ => (Except.ok Settings.default : Except Unit Settings))).2.2
      () Settings.default rfl rfl,
    (load_settings_from_file_spec (Except.error ())
      (fun _ => (Except.ok Settings.default : Except Unit Settings))).1 () rfl⟩

/-- C8 counterexample: when `File::create` succeeds but the underlying write
(serde_json::to_writer_pretty) fails, `save_settings_to_file` panics on the
`unwrap()` (modelled as `none`) instead of surfacing the failure as an I/O
error result — refuting the claim that every storage write failure is surfaced
to the caller as an error result and never as a panic. -/
theorem save_settings_to_file_panics_on_write_error :
    save_settings_to_file Settings.default (Except.ok () : Except Unit Unit)
      (fun _ _ => (Except.error () : Except Unit Unit)) = none :=
  rfl

/-- C8 (amended): `save_settings_to_file` returns an I/O error result exactly
when `File::create` fails; when creation succeeds and the write succeeds it
returns `Ok(())`; a write failure after a successful creation instead panics
on the `unwrap()` (modelled as `none`), so only the creation failure is
surfaced as an error result.  The in-memory settings value is never modified
(the function only reads it). -/
theorem save_settings_to_file_spec {File CreateError WriteError : Type}
    (settings : Settings) (create_result : Except CreateError File)
    (to_writer_pretty : File → Settings → Except WriteError Unit) :
    (∀ e, create_result = Except.error e →
      save_settings_to_file settings create_result to_writer_pretty
        = some (Except.error e)) ∧
    (∀ file, create_result = Except.ok file →
      to_writer_pretty file settings = Except.ok () →
      save_settings_to_file settings create_result to_writer_pretty
        = some (Except.ok ())) ∧
    (∀ file e, create_result = Except.ok file →
      to_writer_pretty file settings = Except.error e →
      save_settings_to_file settings create_result to_writer_pretty = none) := by
  refine ⟨?_, ?_, ?_⟩
  · intro e he
    simp [save_settings_to_file, he]
  · intro file hfile hok
    simp [save_settings_to_file, hfile, hok]
  · intro file e hfile herr
    simp [save_settings_to_file, hfile, herr]

/-- C8 witness: a failed `File::create` is surfaced as an error result, and a
successful create followed by a successful write returns `Ok(())`. -/
theorem save_settings_to_file_spec_witness :
    save_settings_to_file Settings.default (Except.error () : Except Unit Unit)
        (fun _ _ => (Except.ok () : Except Unit Unit))
      = some (Except.error ()) ∧
    save_settings_to_file Settings.default (Except.ok () : Except Unit Unit)
        (fun _ _ => (Except.ok () : Except Unit Unit))
      = some (Except.ok ()) :=
  ⟨(save_settings_to_file_spec Settings.default (Except.error ())
      (fun _ _ => (Except.ok () : Except Unit Unit))).1 () rfl,
    (save_settings_to_file_spec Settings.default (Except.ok ())
      (fun _ _ => (Except.ok () : Except Unit Unit))).2.1 () rfl rfl⟩
